import Mathlib

set_option autoImplicit false

/-!
Verification of the Omnex authentication core.

This file gives a shallow embedding, in Lean 4, of the authentication and
multi-tenant access-control layer of the Omnex repository:

* src/core/auth.py   — credential codec (JWT-style tokens, opaque API keys)
                       and the authorization resolvers,
* src/core/cache.py  — the Redis-backed credential cache and token blacklist,
* src/services/base.py — the tenant-scoped generic data-access service,
* src/services/auth.py — the account/credential lifecycle service,
* src/api/v1/auth.py — the refresh endpoint.

Machine-level details are modelled as follows: timestamps are `Nat` seconds,
UUIDs are `Nat`, SHA-256 is implemented bit-faithfully over `Nat` with explicit
reduction modulo 2^32, the Redis store is an association list plus a `failing`
flag (a raised `RedisError` on every operation), the relational store is a
record of typed tables plus a `failing` flag (a raised SQLAlchemy error on
every query), and Python exceptions are an explicit `Except` channel
distinguishing `fastapi.HTTPException` from all other exception classes.
-/

namespace Omnex

/-! ### SHA-256 over `Nat`, reduced mod 2^32 (models Python `hashlib.sha256`) -/

namespace SHA256

/-- Word modulus 2^32. -/
def wordMod : Nat := 4294967296

/-- Word mask 2^32 - 1. -/
def mask32 : Nat := 4294967295

/-- Rotate a 32-bit word right by `n`. -/
def rotr (n x : Nat) : Nat := ((x >>> n) ||| (x <<< (32 - n))) &&& mask32

/-- Lower sigma-0 schedule function. -/
def sig0 (x : Nat) : Nat := (rotr 7 x) ^^^ (rotr 18 x) ^^^ (x >>> 3)

/-- Lower sigma-1 schedule function. -/
def sig1 (x : Nat) : Nat := (rotr 17 x) ^^^ (rotr 19 x) ^^^ (x >>> 10)

/-- Upper sigma-0 compression function. -/
def usig0 (x : Nat) : Nat := (rotr 2 x) ^^^ (rotr 13 x) ^^^ (rotr 22 x)

/-- Upper sigma-1 compression function. -/
def usig1 (x : Nat) : Nat := (rotr 6 x) ^^^ (rotr 11 x) ^^^ (rotr 25 x)

/-- Choice function; `mask32 - x` is 32-bit complement for `x ≤ mask32`. -/
def ch (x y z : Nat) : Nat := (x &&& y) ^^^ ((mask32 - x) &&& z)

/-- Majority function. -/
def maj (x y z : Nat) : Nat := (x &&& y) ^^^ (x &&& z) ^^^ (y &&& z)

/-- Round constants: fractional parts of cube roots of the first 64 primes. -/
def kConsts : List Nat :=
  [1116352408, 1899447441, 3049323471, 3921009573, 961987163, 1508970993,
   2453635748, 2870763221, 3624381080, 310598401, 607225278, 1426881987,
   1925078388, 2162078206, 2614888103, 3248222580, 3835390401, 4022224774,
   264347078, 604807628, 770255983, 1249150122, 1555081692, 1996064986,
   2554220882, 2821834349, 2952996808, 3210313671, 3336571891, 3584528711,
   113926993, 338241895, 666307205, 773529912, 1294757372, 1396182291,
   1695183700, 1986661051, 2177026350, 2456956037, 2730485921, 2820302411,
   3259730800, 3345764771, 3516065817, 3600352804, 4094571909, 275423344,
   430227734, 506948616, 659060556, 883997877, 958139571, 1322822218,
   1537002063, 1747873779, 1955562222, 2024104815, 2227730452, 2361852424,
   2428436474, 2756734187, 3204031479, 3329325298]

/-- The eight working words of the compression state. -/
structure Hash8 where
  a : Nat
  b : Nat
  c : Nat
  d : Nat
  e : Nat
  f : Nat
  g : Nat
  h : Nat
deriving DecidableEq

/-- Initial hash value: fractional parts of square roots of the first 8 primes. -/
def initH : Hash8 :=
  ⟨1779033703, 3144134277, 1013904242, 2773480762,
   1359893119, 2600822924, 528734635, 1541459225⟩

/-- One compression round for a (constant, schedule-word) pair. -/
def round1 (s : Hash8) (kw : Nat × Nat) : Hash8 :=
  let t1 := (s.h + usig1 s.e + ch s.e s.f s.g + kw.1 + kw.2) % wordMod
  let t2 := (usig0 s.a + maj s.a s.b s.c) % wordMod
  ⟨(t1 + t2) % wordMod, s.a, s.b, s.c, (s.d + t1) % wordMod, s.e, s.f, s.g⟩

/-- Big-endian 4-byte groups to 32-bit words. -/
def toWords : List Nat → List Nat
  | a :: b :: c :: d :: rest => (((a * 256 + b) * 256 + c) * 256 + d) :: toWords rest
  | _ => []

/-- Extend the 16-word block to the 64-word message schedule. -/
def extendW (w : Array Nat) : Nat → Array Nat
  | 0 => w
  | n + 1 =>
    let m := w.size
    let next :=
      (sig1 (w.getD (m - 2) 0) + w.getD (m - 7) 0 +
        sig0 (w.getD (m - 15) 0) + w.getD (m - 16) 0) % wordMod
    extendW (w.push next) n

/-- Compress one 64-byte block into the running hash. -/
def processBlock (h0 : Hash8) (block : List Nat) : Hash8 :=
  let w := extendW (Array.mk (toWords block)) 48
  let s := (kConsts.zip w.toList).foldl round1 h0
  ⟨(h0.a + s.a) % wordMod, (h0.b + s.b) % wordMod, (h0.c + s.c) % wordMod,
   (h0.d + s.d) % wordMod, (h0.e + s.e) % wordMod, (h0.f + s.f) % wordMod,
   (h0.g + s.g) % wordMod, (h0.h + s.h) % wordMod⟩

/-- Pad a byte message to a multiple of 64 bytes with 0x80, zeros, and the
64-bit big-endian bit length. -/
def padMessage (msg : List Nat) : List Nat :=
  let bitLen := msg.length * 8
  let zeros := (119 - msg.length % 64) % 64
  msg ++ 128 :: List.replicate zeros 0 ++
    [(bitLen >>> 56) % 256, (bitLen >>> 48) % 256, (bitLen >>> 40) % 256,
     (bitLen >>> 32) % 256, (bitLen >>> 24) % 256, (bitLen >>> 16) % 256,
     (bitLen >>> 8) % 256, bitLen % 256]

/-- Fold the compression function over `n` consecutive 64-byte blocks. -/
def foldBlocks (h : Hash8) : Nat → List Nat → Hash8
  | 0, _ => h
  | n + 1, l => foldBlocks (processBlock h (l.take 64)) n (l.drop 64)

/-- Render one 32-bit word as 4 big-endian bytes. -/
def word32Bytes (w : Nat) : List Nat :=
  [(w >>> 24) % 256, (w >>> 16) % 256, (w >>> 8) % 256, w % 256]

/-- SHA-256 digest of a byte message, as 32 bytes. -/
def sha256Bytes (msg : List Nat) : List Nat :=
  let padded := padMessage msg
  let hf := foldBlocks initH (padded.length / 64) padded
  word32Bytes hf.a ++ word32Bytes hf.b ++ word32Bytes hf.c ++ word32Bytes hf.d ++
    word32Bytes hf.e ++ word32Bytes hf.f ++ word32Bytes hf.g ++ word32Bytes hf.h

end SHA256

/-! ### Hex rendering and UTF-8 encoding -/

/-- Lowercase hexadecimal digit for a value below 16 (models Python hex output). -/
def hexChar (n : Nat) : Char := if n < 10 then Char.ofNat (48 + n) else Char.ofNat (87 + n)

/-- Two lowercase hex digits of one byte. -/
def byteToHex (b : Nat) : List Char := [hexChar (b / 16), hexChar (b % 16)]

/-- Lowercase hex string of a byte list (models Python `bytes.hex()`). -/
def bytesToHexStr (bs : List Nat) : String := ⟨(bs.map byteToHex).flatten⟩

/-- UTF-8 encoding of one Unicode codepoint. -/
def encodeCodepoint (c : Nat) : List Nat :=
  if c < 128 then [c]
  else if c < 2048 then [192 + c / 64, 128 + c % 64]
  else if c < 65536 then [224 + c / 4096, 128 + (c / 64) % 64, 128 + c % 64]
  else [240 + c / 262144, 128 + (c / 4096) % 64, 128 + (c / 64) % 64, 128 + c % 64]

/-- UTF-8 bytes of a string (models Python `str.encode()`). -/
def strEncode (s : String) : List Nat := (s.data.map (fun c => encodeCodepoint c.toNat)).flatten

/-- Lowercase hex SHA-256 digest of a string
(models Python `hashlib.sha256(s.encode()).hexdigest()`). -/
def sha256_hexdigest (s : String) : String := bytesToHexStr (SHA256.sha256Bytes (strEncode s))

/-- Python string slice `s[:n]`: the first `n` characters. -/
def pyTake (s : String) (n : Nat) : String := ⟨s.data.take n⟩

/-- Python string slice `s[n:]`: all but the first `n` characters. -/
def pyDrop (s : String) (n : Nat) : String := ⟨s.data.drop n⟩

/-! ### Configuration (src/core/config.py, the options the auth core reads) -/

/-- Process-wide configuration consumed by the auth core; field names follow
`Settings` in src/core/config.py.  `DEFAULT_TENANT_ID` is a UUID string in the
source; UUIDs are modelled as `Nat`. -/
structure Settings where
  JWT_SECRET_KEY : String
  JWT_ALGORITHM : String
  JWT_ACCESS_TOKEN_EXPIRE_MINUTES : Nat
  JWT_REFRESH_TOKEN_EXPIRE_DAYS : Nat
  ENABLE_MULTI_TENANT : Bool
  DEFAULT_TENANT_ID : Nat
  REDIS_AUTH_CACHE_TTL : Nat
deriving DecidableEq

/-- Default values from src/core/config.py (the default tenant UUID
00000000-0000-0000-0000-000000000000 is modelled as `0`). -/
def defaultSettings : Settings :=
  { JWT_SECRET_KEY := "jwt-development-secret-key-change-this-in-production-32"
    JWT_ALGORITHM := "HS256"
    JWT_ACCESS_TOKEN_EXPIRE_MINUTES := 30
    JWT_REFRESH_TOKEN_EXPIRE_DAYS := 30
    ENABLE_MULTI_TENANT := false
    DEFAULT_TENANT_ID := 0
    REDIS_AUTH_CACHE_TTL := 300 }

/-! ### Python exceptions -/

/-- The exception channel.  `http` models `fastapi.HTTPException` (a status
code and a detail string); `opErr` models every other exception class raised
by collaborators (`redis.exceptions.RedisError`, SQLAlchemy errors, runtime
errors), which `except HTTPException` handlers do not catch. -/
inductive Exc where
  | http (statusCode : Nat) (detail : String)
  | opErr (msg : String)
deriving DecidableEq

/-! ### Token payloads and signed tokens (src/core/auth.py) -/

/-- JWT payload, mirroring `TokenData` in src/core/auth.py.  `sub` and
`tenant_id` are stringified UUIDs in the source, modelled as `Nat`; `exp` and
`iat` are integer Unix timestamps. -/
structure TokenData where
  sub : Nat
  tenant_id : Nat
  exp : Nat
  iat : Nat
  jti : String
  type : String
  scopes : List String
deriving DecidableEq

/-- An encoded JWT string is determined by its payload together with the
signing secret and algorithm; `jwt.encode` is modelled as packaging these, and
signature verification in `jwt.decode` as comparing the recorded secret and
algorithm against the server configuration (a standard symbolic model of a
MAC: a signature made with the wrong key never verifies). -/
structure SignedToken where
  payload : TokenData
  secret : String
  alg : String
deriving DecidableEq

/-- Wire form of a signed token, used when the token string itself is hashed
for storage (refresh-token rows).  The components determining the string are
concatenated with separators. -/
def SignedToken.serialize (t : SignedToken) : String :=
  String.intercalate "|"
    [t.alg, toString t.payload.sub, toString t.payload.tenant_id,
     toString t.payload.exp, toString t.payload.iat, t.payload.jti,
     t.payload.type, String.intercalate "," t.payload.scopes, t.secret]

/-- Authentication context, mirroring `AuthContext` in src/core/auth.py. -/
structure AuthContext where
  tenant_id : Nat
  user_id : Option Nat := none
  api_key_id : Option Nat := none
  auth_method : String
  scopes : List String := []
  is_superuser : Bool := false
deriving DecidableEq

/-! ### Credential codec (src/core/auth.py) -/

/-- Embedding of `generate_api_key`.  `randomBytes` stands for the output of
`secrets.token_bytes(32)`: 32 cryptographically random bytes.  Returns
`(full_key, key_hash, prefix)` where the prefix is `full_key[:15]`. -/
def generate_api_key (randomBytes : List Nat) : String × String × String :=
  let full_key := "omnex_" ++ bytesToHexStr randomBytes
  let key_hash := sha256_hexdigest full_key
  let keyPre := pyTake full_key 15
  (full_key, key_hash, keyPre)

/-- Embedding of `hash_api_key`: SHA-256 hex digest of the key string. -/
def hash_api_key (api_key : String) : String := sha256_hexdigest api_key

/-- Embedding of `create_access_token`.  `now` models `datetime.now(utc)` and
`jti` the output of `secrets.token_urlsafe(16)`.  Expiry is
`now + JWT_ACCESS_TOKEN_EXPIRE_MINUTES` minutes; `scopes or []` maps a missing
scope list to `[]`. -/
def create_access_token (s : Settings) (now : Nat) (jti : String)
    (user_id tenant_id : Nat) (scopes : Option (List String)) : SignedToken :=
  { payload :=
      { sub := user_id
        tenant_id := tenant_id
        exp := now + 60 * s.JWT_ACCESS_TOKEN_EXPIRE_MINUTES
        iat := now
        jti := jti
        type := "access"
        scopes := scopes.getD [] }
    secret := s.JWT_SECRET_KEY
    alg := s.JWT_ALGORITHM }

/-- Embedding of `create_refresh_token`: type "refresh", empty scopes, expiry
`now + JWT_REFRESH_TOKEN_EXPIRE_DAYS` days; returns the token, the SHA-256 hex
digest of its wire form, and the expiry timestamp. -/
def create_refresh_token (s : Settings) (now : Nat) (jti : String)
    (user_id tenant_id : Nat) : SignedToken × String × Nat :=
  let exp := now + 86400 * s.JWT_REFRESH_TOKEN_EXPIRE_DAYS
  let tok : SignedToken :=
    { payload :=
        { sub := user_id, tenant_id := tenant_id, exp := exp, iat := now,
          jti := jti, type := "refresh", scopes := [] }
      secret := s.JWT_SECRET_KEY
      alg := s.JWT_ALGORITHM }
  (tok, sha256_hexdigest tok.serialize, exp)

/-- Embedding of `decode_token`.  `jwt.decode` first verifies the signature
(wrong secret or algorithm raises `InvalidTokenError`, surfaced as HTTP 401
"Invalid token") and then the `exp` claim (`exp ≤ now` raises
`ExpiredSignatureError`, surfaced as HTTP 401 "Token has expired"). -/
def decode_token (s : Settings) (now : Nat) (t : SignedToken) : Except Exc TokenData :=
  if t.secret = s.JWT_SECRET_KEY ∧ t.alg = s.JWT_ALGORITHM then
    if t.payload.exp ≤ now then .error (.http 401 "Token has expired")
    else .ok t.payload
  else .error (.http 401 "Invalid token")

/-! ### Credential cache (src/core/cache.py, class RedisCache) -/

/-- A value held by the Redis keyspace: either a plain string (blacklist
entries store "1") or a cached `AuthContext` (stored as a JSON dict in the
source; (de)serialization is modelled as the identity). -/
inductive RedisVal where
  | str (s : String)
  | ctx (c : AuthContext)
deriving DecidableEq

/-- The shared Redis store: one keyspace (newest binding first) plus a
`failing` flag meaning every Redis command raises `RedisError`.  Entry TTLs
only bound staleness and are not modelled. -/
structure RedisState where
  store : List (String × RedisVal) := []
  failing : Bool := false
deriving DecidableEq

/-- Redis SETEX: bind a key, or raise when the connection is failing. -/
def RedisState.setex (r : RedisState) (k : String) (v : RedisVal) : Except Exc RedisState :=
  if r.failing then .error (.opErr "RedisError")
  else .ok { r with store := (k, v) :: r.store }

/-- Redis GET: look a key up, or raise when the connection is failing. -/
def RedisState.getVal (r : RedisState) (k : String) : Except Exc (Option RedisVal) :=
  if r.failing then .error (.opErr "RedisError") else .ok (r.store.lookup k)

/-- Redis EXISTS, or raise when the connection is failing. -/
def RedisState.existsKey (r : RedisState) (k : String) : Except Exc Bool :=
  if r.failing then .error (.opErr "RedisError") else .ok (r.store.lookup k).isSome

/-- Embedding of `RedisCache.cache_api_key`: best-effort SETEX under key
`API_KEY_CACHE_PREFIX || key_hash` (the configured prefix is "api_key:"); a
`RedisError` is logged and swallowed, leaving the store unchanged. -/
def cache_api_key (r : RedisState) (key_hash : String) (data : AuthContext) : RedisState :=
  match r.setex ("api_key:" ++ key_hash) (.ctx data) with
  | .ok r2 => r2
  | .error _ => r

/-- Embedding of `RedisCache.get_cached_api_key`: GET under the "api_key:"
prefix; a `RedisError` is logged and turned into a miss.  A string-shaped
value under this prefix cannot occur (only `cache_api_key` writes it). -/
def get_cached_api_key (r : RedisState) (key_hash : String) : Option AuthContext :=
  match r.getVal ("api_key:" ++ key_hash) with
  | .ok (some (.ctx c)) => some c
  | .ok (some (.str _)) => none
  | .ok none => none
  | .error _ => none

/-- Embedding of `RedisCache.blacklist_token`: SETEX "1" under
`TOKEN_BLACKLIST_PREFIX || jti` (the configured prefix is "blacklist:") for
the token's remaining lifetime; a `RedisError` here is re-raised because a
silently lost revocation is a security hole. -/
def blacklist_token (r : RedisState) (token_jti : String) : Except Exc RedisState :=
  r.setex ("blacklist:" ++ token_jti) (.str "1")

/-- Embedding of `RedisCache.is_token_blacklisted`: EXISTS under the
"blacklist:" prefix, failing closed — a `RedisError` is answered with `true`
(treat the token as revoked). -/
def is_token_blacklisted (r : RedisState) (token_jti : String) : Bool :=
  match r.existsKey ("blacklist:" ++ token_jti) with
  | .ok b => b
  | .error _ => true

/-! ### Persistent store (tables from migrations/versions/001_initial_auth_schema.py) -/

/-- Row of auth.users. -/
structure UserRecord where
  id : Nat
  tenant_id : Nat
  email : String
  hashed_password : String
  is_active : Bool
  is_superuser : Bool
  last_login_at : Option Nat := none
deriving DecidableEq

/-- Row of auth.api_keys.  `scopes` is a JSON text column in the source,
modelled as the parsed optional scope list; `prefixCol` models the `prefix`
display column. -/
structure APIKeyRecord where
  id : Nat
  tenant_id : Nat
  user_id : Nat
  name : String
  key_hash : String
  prefixCol : String
  scopes : Option (List String) := none
  last_used_at : Option Nat := none
  expires_at : Option Nat := none
  is_active : Bool := true
deriving DecidableEq

/-- Row of auth.refresh_tokens. -/
structure RefreshTokenRecord where
  id : Nat
  user_id : Nat
  token_hash : String
  expires_at : Nat
deriving DecidableEq

/-- The relational store: the auth tables plus a `failing` flag meaning every
query or commit raises a SQLAlchemy error (a store outage). -/
structure Database where
  users : List UserRecord := []
  api_keys : List APIKeyRecord := []
  refresh_tokens : List RefreshTokenRecord := []
  failing : Bool := false
deriving DecidableEq

/-- Run one statement against the store: yields the value, or raises when the
store is failing. -/
def Database.run {α : Type} (db : Database) (x : α) : Except Exc α :=
  if db.failing then .error (.opErr "OperationalError") else .ok x

/-- SQLAlchemy `scalar_one_or_none`: none for no row, the row if unique, and
`MultipleResultsFound` (an unhandled non-HTTP error) otherwise. -/
def scalar_one_or_none {α : Type} : List α → Except Exc (Option α)
  | [] => .ok none
  | [x] => .ok (some x)
  | _ => .error (.opErr "MultipleResultsFound")

/-! ### Authorization resolvers (src/core/auth.py, dependency functions) -/

/-- Embedding of `get_current_user_from_token`: decode, consult the blacklist
when a cache handle was supplied (the parameter defaults to `None` in the
source, and the FastAPI wiring never injects it), then build the context with
auth method "jwt" and `is_superuser := false`. -/
def get_current_user_from_token (s : Settings) (now : Nat) (tok : SignedToken)
    (cache : Option RedisState) : Except Exc AuthContext :=
  match decode_token s now tok with
  | .error e => .error e
  | .ok token_data =>
    let blacklisted : Bool :=
      match cache with
      | some c => is_token_blacklisted c token_data.jti
      | none => false
    if blacklisted then .error (.http 401 "Token has been revoked")
    else
      .ok { tenant_id := token_data.tenant_id, user_id := some token_data.sub,
            auth_method := "jwt", scopes := token_data.scopes, is_superuser := false }

/-- Truthy expiry test from `get_current_user_from_api_key`:
`api_key_obj.expires_at and api_key_obj.expires_at < now`. -/
def apiKeyExpired (k : APIKeyRecord) (now : Nat) : Bool :=
  match k.expires_at with
  | some e => decide (e < now)
  | none => false

/-- Embedding of `get_current_user_from_api_key`: hash the presented key,
return a cache hit as-is; otherwise query for an active row with that hash,
reject a missing row or a past expiry, set the row's last-used timestamp and
commit, build the context with auth method "api_key" and the owning user's
superuser flag, and populate the cache best-effort.  The returned triple is
the context plus the mutated store and cache. -/
def get_current_user_from_api_key (now : Nat) (api_key : String)
    (cache : Option RedisState) (db : Option Database) :
    Except Exc (AuthContext × Option Database × Option RedisState) :=
  let key_hash := hash_api_key api_key
  let cached : Option AuthContext :=
    match cache with
    | some c => get_cached_api_key c key_hash
    | none => none
  match cached with
  | some ctxData => .ok (ctxData, db, cache)
  | none =>
    match db with
    | none => .error (.http 500 "Database connection not available")
    | some d =>
      match d.run (d.api_keys.filter (fun k => k.key_hash == key_hash && k.is_active)) with
      | .error e => .error e
      | .ok rows =>
        match scalar_one_or_none rows with
        | .error e => .error e
        | .ok none => .error (.http 401 "Invalid API key")
        | .ok (some obj) =>
          if apiKeyExpired obj now then .error (.http 401 "API key has expired")
          else
            let d2 : Database :=
              { d with api_keys := d.api_keys.map (fun k =>
                  if k.id == obj.id then { k with last_used_at := some now } else k) }
            match d2.run () with
            | .error e => .error e
            | .ok _ =>
              match d.users.find? (fun u => u.id == obj.user_id) with
              | none => .error (.opErr "AttributeError")
              | some u =>
                let auth_context : AuthContext :=
                  { tenant_id := obj.tenant_id, user_id := some obj.user_id,
                    api_key_id := some obj.id, auth_method := "api_key",
                    scopes := obj.scopes.getD [], is_superuser := u.is_superuser }
                let cache2 := cache.map (fun c => cache_api_key c key_hash auth_context)
                .ok (auth_context, some d2, cache2)

/-- A presented bearer credential string, classified the way
`get_auth_context` classifies it: strings with the fixed "omnex_" public
prefix are opaque API keys, every other string is parsed as a signed token.
A missing or empty authorization string (both falsy in Python) is `none` at
the call sites below. -/
inductive Credential where
  | key (raw : String)
  | jwt (tok : SignedToken)
deriving DecidableEq

/-- Embedding of `get_auth_context`: no credential resolves to the default
tenant with auth method "none" when multi-tenant mode is off and fails with
HTTP 401 "Authorization required" otherwise; an "omnex_"-prefixed string goes
to the API-key resolver and anything else to the token resolver. -/
def get_auth_context (s : Settings) (now : Nat) (auth : Option Credential)
    (cache : Option RedisState) (db : Option Database) :
    Except Exc (AuthContext × Option Database × Option RedisState) :=
  match auth with
  | none =>
    if !s.ENABLE_MULTI_TENANT then
      .ok ({ tenant_id := s.DEFAULT_TENANT_ID, auth_method := "none",
             is_superuser := false }, db, cache)
    else .error (.http 401 "Authorization required")
  | some (.key raw) => get_current_user_from_api_key now raw cache db
  | some (.jwt t) =>
    match get_current_user_from_token s now t cache with
    | .error e => .error e
    | .ok c => .ok (c, db, cache)

/-- Embedding of `get_optional_auth_context`: a missing credential yields
`none`; otherwise the mandatory resolver runs under
`try ... except HTTPException: return None`, so HTTP errors become `none`
while non-HTTP exceptions still propagate. -/
def get_optional_auth_context (s : Settings) (now : Nat) (auth : Option Credential)
    (cache : Option RedisState) (db : Option Database) :
    Except Exc (Option (AuthContext × Option Database × Option RedisState)) :=
  match auth with
  | none => .ok none
  | some a =>
    match get_auth_context s now (some a) cache db with
    | .ok r => .ok (some r)
    | .error (.http _ _) => .ok none
    | .error e => .error e

/-! ### Tenant-scoped data access (src/services/base.py, class BaseService) -/

/-- The reflection interface of a SQLAlchemy model class used by
`BaseService`: the primary key accessor, and the `tenant_id` accessor when
`hasattr(model, "tenant_id")` holds (`none` models a class without the
attribute). -/
structure PyModel (α : Type) where
  getId : α → Nat
  tenantAttr : Option (α → Nat)

/-- A `BaseService` instance: its model class and the optional tenant id it
was constructed with.  A present UUID is always truthy in Python, so
`if self.tenant_id` is exactly an `Option.isSome` test. -/
structure BaseService (α : Type) where
  model : PyModel α
  tenant_id : Option Nat := none

/-- Embedding of `BaseService.get`: select rows whose primary key matches,
adding the tenant filter when the service has a tenant id and the model has a
`tenant_id` attribute, then `scalar_one_or_none`. -/
def BaseService.get {α : Type} (svc : BaseService α) (table : List α) (idv : Nat) :
    Except Exc (Option α) :=
  let q := table.filter (fun r => svc.model.getId r == idv)
  let q2 :=
    match svc.tenant_id, svc.model.tenantAttr with
    | some t, some f => q.filter (fun r => f r == t)
    | _, _ => q
  scalar_one_or_none q2

/-! ### Account & credential lifecycle (src/services/auth.py, src/api/v1/auth.py) -/

/-- Result dict of a successful refresh:
`{"access_token": ..., "token_type": "bearer"}`. -/
structure AccessTokenResult where
  access_token : SignedToken
  token_type : String
deriving DecidableEq

/-- Body of `AuthService.refresh_access_token` before its blanket
`try/except`: decode the presented token, require type "refresh", look its
hash up (with `hash_api_key`, the same SHA-256 helper), treat a missing row as
invalid, purge an expired row, reject an inactive owner, and otherwise issue a
fresh access token with scopes ["read", "write"].  `None` outcomes are the
code's client-facing failures; raised exceptions pass to the caller.  Returns
the optional result together with the possibly mutated store. -/
def refresh_access_token_attempt (s : Settings) (now : Nat) (newJti : String)
    (db : Database) (tok : SignedToken) :
    Except Exc (Option AccessTokenResult × Database) :=
  match decode_token s now tok with
  | .error e => .error e
  | .ok token_data =>
    if token_data.type ≠ "refresh" then .ok (none, db)
    else
      let token_hash := hash_api_key tok.serialize
      match db.run (db.refresh_tokens.filter (fun r => r.token_hash == token_hash)) with
      | .error e => .error e
      | .ok rows =>
        match scalar_one_or_none rows with
        | .error e => .error e
        | .ok none => .ok (none, db)
        | .ok (some rt) =>
          if rt.expires_at < now then
            let db2 :=
              { db with refresh_tokens := db.refresh_tokens.filter (fun r => !(r.id == rt.id)) }
            match db2.run () with
            | .error e => .error e
            | .ok _ => .ok (none, db2)
          else
            match db.users.find? (fun u => u.id == rt.user_id) with
            | none => .error (.opErr "AttributeError")
            | some user =>
              if !user.is_active then .ok (none, db)
              else
                let access :=
                  create_access_token s now newJti user.id user.tenant_id
                    (some ["read", "write"])
                .ok (some { access_token := access, token_type := "bearer" }, db)

/-- Embedding of `AuthService.refresh_access_token`: the body above wrapped in
`try ... except Exception: return None`, which converts every raised
exception — the HTTP errors of `decode_token` and equally a store outage —
into the `None` outcome. -/
def refresh_access_token (s : Settings) (now : Nat) (newJti : String)
    (db : Database) (tok : SignedToken) : Option AccessTokenResult × Database :=
  match refresh_access_token_attempt s now newJti db tok with
  | .ok r => r
  | .error _ => (none, db)

/-- Embedding of the POST /refresh endpoint (src/api/v1/auth.py,
`refresh_token`): a `None` from the service becomes HTTP 401
"Invalid or expired refresh token". -/
def refresh_endpoint (s : Settings) (now : Nat) (newJti : String)
    (db : Database) (tok : SignedToken) : Except Exc (AccessTokenResult × Database) :=
  match refresh_access_token s now newJti db tok with
  | (none, _) => .error (.http 401 "Invalid or expired refresh token")
  | (some r, db2) => .ok (r, db2)

/-! ### Concrete instances used by counterexamples and witnesses -/

/-- A valid access token whose jti is on the blacklist. -/
def revokedDemoToken : SignedToken :=
  create_access_token defaultSettings 0 "jti-revoked" 1 2 (some ["read"])

/-- A Redis state in which revokedDemoToken's id is recorded as revoked. -/
def revokedDemoCache : RedisState :=
  { store := [("blacklist:" ++ "jti-revoked", .str "1")], failing := false }

/-- A present credential that is invalid: a token signed with the wrong
secret. -/
def forgedDemoToken : SignedToken :=
  { payload := { sub := 1, tenant_id := 0, exp := 1000, iat := 0, jti := "x",
                 type := "access", scopes := [] }
    secret := "forged-secret"
    alg := "HS256" }

/-- An account owning a stored, unexpired refresh token, in a store whose
every query raises (an outage). -/
def outageDemoDb : Database :=
  { users := [{ id := 1, tenant_id := 0, email := "a@x.com", hashed_password := "h",
                is_active := true, is_superuser := false }]
    refresh_tokens := [{ id := 1, user_id := 1,
                         token_hash := (create_refresh_token defaultSettings 0 "jti-r" 1 0).2.1,
                         expires_at := 2592000 }]
    failing := true }

/-- The context built on the store path of `get_current_user_from_api_key`
from the key row and its owning user. -/
def apiKeyCtx (r : APIKeyRecord) (u : UserRecord) : AuthContext :=
  { tenant_id := r.tenant_id, user_id := some r.user_id, api_key_id := some r.id,
    auth_method := "api_key", scopes := r.scopes.getD [],
    is_superuser := u.is_superuser }

/-- The store after `get_current_user_from_api_key` sets the matched row's
last-used timestamp and commits. -/
def touchLastUsed (d : Database) (r : APIKeyRecord) (now : Nat) : Database :=
  { d with api_keys := d.api_keys.map (fun k =>
      if k.id == r.id then { k with last_used_at := some now } else k) }

/-- A context as cached for an API key that has since been revoked. -/
def staleDemoCtx : AuthContext :=
  { tenant_id := 7, user_id := some 3, api_key_id := some 9,
    auth_method := "api_key", scopes := ["read"], is_superuser := false }

/-- A cache still holding the context of the key "omnex_stale". -/
def staleDemoCache : RedisState :=
  { store := [("api_key:" ++ hash_api_key "omnex_stale", .ctx staleDemoCtx)],
    failing := false }

/-- A store in which the key "omnex_stale" has been soft-revoked
(is_active = false). -/
def staleDemoDb : Database :=
  { users := [{ id := 3, tenant_id := 7, email := "o@x.com", hashed_password := "h",
                is_active := true, is_superuser := false }]
    api_keys := [{ id := 9, tenant_id := 7, user_id := 3, name := "stale",
                   key_hash := hash_api_key "omnex_stale", prefixCol := "omnex_stalexxxx",
                   scopes := some ["read"], last_used_at := none, expires_at := none,
                   is_active := false }] }

/-- An active, unexpired API key row owned by a superuser account. -/
def suKey : APIKeyRecord :=
  { id := 11, tenant_id := 6, user_id := 12, name := "root-key",
    key_hash := hash_api_key "omnex_root", prefixCol := "omnex_rootxxxxx",
    scopes := none, last_used_at := none, expires_at := some 100, is_active := true }

/-- The superuser account owning suKey. -/
def suUser : UserRecord :=
  { id := 12, tenant_id := 6, email := "root@x.com", hashed_password := "h",
    is_active := true, is_superuser := true }

/-- A store holding suUser and suKey. -/
def suDb : Database := { users := [suUser], api_keys := [suKey] }

/-! ### Validation of the SHA-256 embedding -/

/-- Validation of the SHA-256 embedding against the standard empty-string test
vector. -/
theorem sha256_hexdigest_empty :
    sha256_hexdigest "" = "e3b0c44298fc1c149afbf4c8996fb92427ae41e4649b934ca495991b7852b855" := by
  decide

/-- Validation of the SHA-256 embedding against the standard "abc" test vector. -/
theorem sha256_hexdigest_abc :
    sha256_hexdigest "abc" = "ba7816bf8f01cfea414140de5dae2223b00361a396177a9cb410ff61f20015ad" := by
  decide

/-! ### Shared lemmas -/

/-- A unique scalar result is a member of the selected rows. -/
theorem scalar_one_or_none_ok_some {α : Type} {l : List α} {r : α}
    (h : scalar_one_or_none l = .ok (some r)) : r ∈ l := by
  match l with
  | [] => simp [scalar_one_or_none] at h
  | [x] =>
    simp [scalar_one_or_none] at h
    simp [h]
  | a :: b :: t => simp [scalar_one_or_none] at h

/-- Splitting a Python slice: `s[:n] + s[n:] = s`. -/
theorem pyTake_append_pyDrop (s : String) (n : Nat) : pyTake s n ++ pyDrop s n = s := by
  cases s with
  | mk data =>
    show String.mk (data.take n ++ data.drop n) = String.mk data
    rw [List.take_append_drop]

/-- Hex digits produced by `hexChar` are lowercase hex characters. -/
theorem hexChar_mem_digits (n : Nat) (h : n < 16) :
    hexChar n ∈ ("0123456789abcdef").data := by
  interval_cases n <;> decide

/-- With no usable cache entry and a live store holding no active row for the
hash, API-key resolution answers HTTP 401 "Invalid API key". -/
theorem api_key_no_active_row (now : Nat) (key : String) (cache : Option RedisState)
    (d : Database)
    (hmiss : ∀ c, cache = some c → get_cached_api_key c (hash_api_key key) = none)
    (hfail : d.failing = false)
    (hfilter : d.api_keys.filter (fun k => k.key_hash == hash_api_key key && k.is_active) = []) :
    get_current_user_from_api_key now key cache (some d) =
      .error (.http 401 "Invalid API key") := by
  cases cache with
  | none =>
    simp [get_current_user_from_api_key, Database.run, hfail, hfilter, scalar_one_or_none]
  | some c =>
    simp [get_current_user_from_api_key, hmiss c rfl, Database.run, hfail, hfilter,
      scalar_one_or_none]

/-- With no usable cache entry and the unique active row past its expiry,
API-key resolution answers HTTP 401 "API key has expired". -/
theorem api_key_expired_row (now : Nat) (key : String) (cache : Option RedisState)
    (d : Database) (r : APIKeyRecord)
    (hmiss : ∀ c, cache = some c → get_cached_api_key c (hash_api_key key) = none)
    (hfail : d.failing = false)
    (hfilter : d.api_keys.filter (fun k => k.key_hash == hash_api_key key && k.is_active) = [r])
    (hexp : apiKeyExpired r now = true) :
    get_current_user_from_api_key now key cache (some d) =
      .error (.http 401 "API key has expired") := by
  cases cache with
  | none =>
    simp [get_current_user_from_api_key, Database.run, hfail, hfilter,
      scalar_one_or_none, hexp]
  | some c =>
    simp [get_current_user_from_api_key, hmiss c rfl, Database.run, hfail, hfilter,
      scalar_one_or_none, hexp]

/-- With no usable cache entry, a live store, a unique active unexpired row
and its owner present, API-key resolution succeeds: the context carries the
row's tenant, account and scopes and the owner's superuser flag, the row's
last-used timestamp is set to now, and the cache is repopulated. -/
theorem api_key_db_success (now : Nat) (key : String) (cache : Option RedisState)
    (d : Database) (r : APIKeyRecord) (u : UserRecord)
    (hmiss : ∀ c, cache = some c → get_cached_api_key c (hash_api_key key) = none)
    (hfail : d.failing = false)
    (hfilter : d.api_keys.filter (fun k => k.key_hash == hash_api_key key && k.is_active) = [r])
    (hexp : apiKeyExpired r now = false)
    (huser : d.users.find? (fun x => x.id == r.user_id) = some u) :
    get_current_user_from_api_key now key cache (some d) =
      .ok (apiKeyCtx r u, some (touchLastUsed d r now),
        cache.map (fun c => cache_api_key c (hash_api_key key) (apiKeyCtx r u))) := by
  cases cache with
  | none =>
    simp [get_current_user_from_api_key, Database.run, hfail, hfilter,
      scalar_one_or_none, hexp, huser, apiKeyCtx, touchLastUsed]
  | some c =>
    simp [get_current_user_from_api_key, hmiss c rfl, Database.run, hfail, hfilter,
      scalar_one_or_none, hexp, huser, apiKeyCtx, touchLastUsed]

/-! ### Claim theorems -/

/-- C2: `is_token_blacklisted` fails closed — when the cache backend raises,
the token is reported blacklisted; when the lookup succeeds, the answer is
true exactly when a blacklist entry for the token id exists. -/
theorem is_token_blacklisted_fail_closed (r : RedisState) (jti : String) :
    (r.failing = true → is_token_blacklisted r jti = true) ∧
    (r.failing = false →
      (is_token_blacklisted r jti = true ↔
        (r.store.lookup ("blacklist:" ++ jti)).isSome = true)) := by
  constructor
  · intro h
    simp [is_token_blacklisted, RedisState.existsKey, h]
  · intro h
    simp [is_token_blacklisted, RedisState.existsKey, h]

/-- Witness for C2: a failing backend reports a never-blacklisted id as
blacklisted, and a live backend reports a recorded id as blacklisted. -/
theorem is_token_blacklisted_fail_closed_witness :
    is_token_blacklisted ⟨[], true⟩ "t" = true ∧
    is_token_blacklisted ⟨[("blacklist:" ++ "j", RedisVal.str "1")], false⟩ "j" = true :=
  ⟨(is_token_blacklisted_fail_closed ⟨[], true⟩ "t").1 rfl,
   ((is_token_blacklisted_fail_closed ⟨[("blacklist:" ++ "j", RedisVal.str "1")], false⟩ "j").2
      rfl).mpr (by decide)⟩

/-- C9: with no credential presented, single-tenant mode resolves to the
default tenant with auth method "none" and no account, while multi-tenant
mode fails with HTTP 401 "Authorization required". -/
theorem get_auth_context_no_credential (s : Settings) (now : Nat)
    (cache : Option RedisState) (db : Option Database) :
    (s.ENABLE_MULTI_TENANT = false →
      get_auth_context s now none cache db =
        .ok ({ tenant_id := s.DEFAULT_TENANT_ID, user_id := none, api_key_id := none,
               auth_method := "none", scopes := [], is_superuser := false }, db, cache)) ∧
    (s.ENABLE_MULTI_TENANT = true →
      get_auth_context s now none cache db = .error (.http 401 "Authorization required")) := by
  constructor <;> intro h <;> simp [get_auth_context, h]

/-- Witness for C9 at the shipped default settings and at the same settings
with multi-tenant mode enabled. -/
theorem get_auth_context_no_credential_witness :
    get_auth_context defaultSettings 0 none none none =
      .ok ({ tenant_id := 0, user_id := none, api_key_id := none,
             auth_method := "none", scopes := [], is_superuser := false }, none, none) ∧
    get_auth_context { defaultSettings with ENABLE_MULTI_TENANT := true } 0 none none none =
      .error (.http 401 "Authorization required") :=
  ⟨(get_auth_context_no_credential defaultSettings 0 none none).1 rfl,
   (get_auth_context_no_credential { defaultSettings with ENABLE_MULTI_TENANT := true }
      0 none none).2 rfl⟩

/-- C7: an access token issued by `create_access_token` and decoded before its
expiry with the same secret and algorithm yields exactly the issued payload —
subject, tenant and scopes as given, type "access" — and its expiry is
strictly after its issued-at instant. -/
theorem access_token_roundtrip (s : Settings) (now now2 : Nat) (jti : String)
    (user tenant : Nat) (scopes : List String)
    (hTTL : 0 < s.JWT_ACCESS_TOKEN_EXPIRE_MINUTES)
    (hfresh : now2 < now + 60 * s.JWT_ACCESS_TOKEN_EXPIRE_MINUTES) :
    decode_token s now2 (create_access_token s now jti user tenant (some scopes)) =
      .ok { sub := user, tenant_id := tenant,
            exp := now + 60 * s.JWT_ACCESS_TOKEN_EXPIRE_MINUTES, iat := now,
            jti := jti, type := "access", scopes := scopes } ∧
    now < now + 60 * s.JWT_ACCESS_TOKEN_EXPIRE_MINUTES := by
  have h1 : ¬ (now + 60 * s.JWT_ACCESS_TOKEN_EXPIRE_MINUTES ≤ now2) := by omega
  constructor
  · simp [decode_token, create_access_token, h1]
  · omega

/-- Witness for C7 at concrete inputs under the shipped default settings. -/
theorem access_token_roundtrip_witness :
    decode_token defaultSettings 1001
        (create_access_token defaultSettings 1000 "j" 1 2 (some ["read"])) =
      .ok { sub := 1, tenant_id := 2, exp := 1000 + 60 * 30, iat := 1000,
            jti := "j", type := "access", scopes := ["read"] } ∧
    1000 < 1000 + 60 * 30 :=
  access_token_roundtrip defaultSettings 1000 1001 "j" 1 2 ["read"] (by decide) (by decide)

/-- C1: a tenant-scoped `BaseService.get` over a model with a `tenant_id`
attribute returns a record only when the record's tenant matches the
service's tenant; a record of another tenant yields the same `None` outcome
as a wholly absent id, so cross-tenant existence is not observable.  Primary
keys are assumed unique, as the store's primary-key constraint guarantees. -/
theorem tenant_scoped_get {α : Type} (svc : BaseService α) (table : List α)
    (idv T : Nat) (f : α → Nat)
    (ht : svc.tenant_id = some T) (hf : svc.model.tenantAttr = some f)
    (huniq : ∀ r₁ ∈ table, ∀ r₂ ∈ table, svc.model.getId r₁ = svc.model.getId r₂ → r₁ = r₂) :
    (∀ r, BaseService.get svc table idv = .ok (some r) →
        r ∈ table ∧ svc.model.getId r = idv ∧ f r = T) ∧
    (∀ r ∈ table, svc.model.getId r = idv → f r ≠ T →
        BaseService.get svc table idv = .ok none) ∧
    ((∀ r ∈ table, svc.model.getId r ≠ idv) → BaseService.get svc table idv = .ok none) := by
  refine ⟨?_, ?_, ?_⟩
  · intro r h
    simp only [BaseService.get, ht, hf] at h
    have hmem := scalar_one_or_none_ok_some h
    simp only [List.mem_filter, beq_iff_eq] at hmem
    exact ⟨hmem.1.1, hmem.1.2, hmem.2⟩
  · intro r hr hid hT
    have hnil : (table.filter (fun x => svc.model.getId x == idv)).filter (fun x => f x == T) = [] := by
      rw [List.filter_eq_nil_iff]
      intro x hx
      simp only [List.mem_filter, beq_iff_eq] at hx
      have hxr : x = r := huniq x hx.1 r hr (hx.2.trans hid.symm)
      simp [hxr, hT]
    simp [BaseService.get, ht, hf, hnil, scalar_one_or_none]
  · intro hnone
    have hnil : table.filter (fun x => svc.model.getId x == idv) = [] := by
      rw [List.filter_eq_nil_iff]
      intro x hx
      simp [hnone x hx]
    simp [BaseService.get, ht, hf, hnil, scalar_one_or_none]

/-- C3 failing-input evaluation: the token's id is in the revocation record,
yet the resolver invoked without a cache handle — exactly how the FastAPI
wiring calls it, since `cache` is a plain default-`None` parameter and is
never injected — skips the blacklist check and produces a context instead of
the revoked-credential error. -/
theorem token_resolution_ignores_blacklist_without_cache :
    is_token_blacklisted revokedDemoCache "jti-revoked" = true ∧
    get_current_user_from_token defaultSettings 10 revokedDemoToken none =
      .ok { tenant_id := 2, user_id := some 1, auth_method := "jwt",
            scopes := ["read"], is_superuser := false } :=
  ⟨rfl, rfl⟩

/-- C4 failing-input evaluation: for the same present-but-invalid credential
the mandatory resolver raises HTTP 401 "Invalid token", but the optional
resolver swallows the error and returns the empty context — the very
behaviour the repository's own test
(`test_optional_auth_validates_token`) asserts must not happen. -/
theorem optional_auth_swallows_invalid_credential :
    get_auth_context defaultSettings 5 (some (.jwt forgedDemoToken)) none none =
      .error (.http 401 "Invalid token") ∧
    get_optional_auth_context defaultSettings 5 (some (.jwt forgedDemoToken)) none none =
      .ok none :=
  ⟨rfl, rfl⟩

/-- C6 failing-input evaluation: during a store outage, refreshing with a
perfectly valid refresh token does not surface a server fault — the blanket
`except Exception` in `AuthService.refresh_access_token` converts the raised
store error into `None`, which the endpoint maps to the client-facing HTTP
401 "Invalid or expired refresh token". -/
theorem store_outage_becomes_client_401 :
    outageDemoDb.failing = true ∧
    refresh_endpoint defaultSettings 100 "jti-new" outageDemoDb
        (create_refresh_token defaultSettings 0 "jti-r" 1 0).1 =
      .error (.http 401 "Invalid or expired refresh token") :=
  ⟨rfl, rfl⟩

/-- Witness for C1: a service scoped to tenant 1 over a table holding record
id 5 of tenant 2 answers `None` both for id 5 (present, other tenant) and for
id 6 (absent). -/
theorem tenant_scoped_get_witness :
    BaseService.get (α := Nat × Nat) ⟨⟨Prod.fst, some Prod.snd⟩, some 1⟩ [(5, 2)] 5 = .ok none ∧
    BaseService.get (α := Nat × Nat) ⟨⟨Prod.fst, some Prod.snd⟩, some 1⟩ [(5, 2)] 6 = .ok none :=
  ⟨(tenant_scoped_get ⟨⟨Prod.fst, some Prod.snd⟩, some 1⟩ [(5, 2)] 5 1 Prod.snd rfl rfl
      (by decide)).2.1 (5, 2) (by simp) rfl (by decide),
   (tenant_scoped_get ⟨⟨Prod.fst, some Prod.snd⟩, some 1⟩ [(5, 2)] 6 1 Prod.snd rfl rfl
      (by decide)).2.2 (by decide)⟩

set_option maxRecDepth 8192 in
/-- C5 counterexample: the claim as stated is false — with a context for the
key still cached, a store row that is no longer active does not make
resolution fail: the cached context is returned, the store is not consulted,
and the last-used timestamp is left untouched (the returned store is
unchanged). -/
theorem cached_entry_bypasses_store_checks :
    (staleDemoDb.api_keys.map fun k => k.is_active) = [false] ∧
    get_current_user_from_api_key 50 "omnex_stale" (some staleDemoCache) (some staleDemoDb) =
      .ok (staleDemoCtx, some staleDemoDb, some staleDemoCache) :=
  ⟨rfl, rfl⟩

/-- C5 (amended): when the cache yields no entry for the presented key's
hash, resolution fails with HTTP 500 without a store handle, with HTTP 401
"Invalid API key" when the live store holds no active row for the hash, and
with HTTP 401 "API key has expired" when the unique active row is past its
expiry; on success the context has auth method "api_key" with the row's
tenant, account and scopes, and the row's last-used timestamp is set. -/
theorem api_key_resolution_store_path (now : Nat) (key : String) (cache : Option RedisState)
    (hmiss : ∀ c, cache = some c → get_cached_api_key c (hash_api_key key) = none) :
    (get_current_user_from_api_key now key cache none =
      .error (.http 500 "Database connection not available")) ∧
    (∀ d : Database, d.failing = false →
      d.api_keys.filter (fun k => k.key_hash == hash_api_key key && k.is_active) = [] →
      get_current_user_from_api_key now key cache (some d) =
        .error (.http 401 "Invalid API key")) ∧
    (∀ (d : Database) (r : APIKeyRecord), d.failing = false →
      d.api_keys.filter (fun k => k.key_hash == hash_api_key key && k.is_active) = [r] →
      apiKeyExpired r now = true →
      get_current_user_from_api_key now key cache (some d) =
        .error (.http 401 "API key has expired")) ∧
    (∀ (d : Database) (r : APIKeyRecord) (u : UserRecord), d.failing = false →
      d.api_keys.filter (fun k => k.key_hash == hash_api_key key && k.is_active) = [r] →
      apiKeyExpired r now = false →
      d.users.find? (fun x => x.id == r.user_id) = some u →
      get_current_user_from_api_key now key cache (some d) =
        .ok (apiKeyCtx r u, some (touchLastUsed d r now),
          cache.map (fun c => cache_api_key c (hash_api_key key) (apiKeyCtx r u)))) := by
  refine ⟨?_, ?_, ?_, ?_⟩
  · cases cache with
    | none => simp [get_current_user_from_api_key]
    | some c => simp [get_current_user_from_api_key, hmiss c rfl]
  · intro d hfail hfilter
    exact api_key_no_active_row now key cache d hmiss hfail hfilter
  · intro d r hfail hfilter hexp
    exact api_key_expired_row now key cache d r hmiss hfail hfilter hexp
  · intro d r u hfail hfilter hexp huser
    exact api_key_db_success now key cache d r u hmiss hfail hfilter hexp huser

/-- Witness for C5: resolving the active key "omnex_root" against suDb with
no cache succeeds with the expected context and stamps the row's last-used
timestamp. -/
theorem api_key_resolution_store_path_witness :
    get_current_user_from_api_key 50 "omnex_root" none (some suDb) =
      .ok (apiKeyCtx suKey suUser, some (touchLastUsed suDb suKey 50), none) :=
  (api_key_resolution_store_path 50 "omnex_root" none
      (fun _ h => Option.noConfusion h)).2.2.2 suDb suKey suUser rfl rfl rfl rfl

/-- C10: a context resolved from a signed token always carries
`is_superuser = false`, whatever the owning account's stored flag; only
API-key resolution on the store path copies the owning account's stored
superuser flag into the context. -/
theorem superuser_flag_propagation :
    (∀ (s : Settings) (now : Nat) (tok : SignedToken) (cache : Option RedisState)
        (ctx : AuthContext),
      get_current_user_from_token s now tok cache = .ok ctx → ctx.is_superuser = false) ∧
    (∀ (now : Nat) (key : String) (cache : Option RedisState) (d : Database)
        (r : APIKeyRecord) (u : UserRecord),
      (∀ c, cache = some c → get_cached_api_key c (hash_api_key key) = none) →
      d.failing = false →
      d.api_keys.filter (fun k => k.key_hash == hash_api_key key && k.is_active) = [r] →
      apiKeyExpired r now = false →
      d.users.find? (fun x => x.id == r.user_id) = some u →
      ∀ (ctx : AuthContext) (rest : Option Database × Option RedisState),
        get_current_user_from_api_key now key cache (some d) = .ok (ctx, rest) →
        ctx.is_superuser = u.is_superuser) := by
  constructor
  · intro s now tok cache ctx h
    simp only [get_current_user_from_token] at h
    split at h
    · exact Except.noConfusion h
    · split at h
      · exact Except.noConfusion h
      · injection h with h2
        rw [← h2]
  · intro now key cache d r u hmiss hfail hfilter hexp huser ctx rest h
    rw [api_key_db_success now key cache d r u hmiss hfail hfilter hexp huser] at h
    injection h with h2
    have hctx : apiKeyCtx r u = ctx := congrArg Prod.fst h2
    rw [← hctx]
    rfl

/-- Witness for C10: a token-resolved context has the superuser flag off,
and the context resolved from suKey carries its superuser owner's flag. -/
theorem superuser_flag_propagation_witness :
    ({ tenant_id := 2, user_id := some 1, auth_method := "jwt", scopes := ["read"],
        is_superuser := false } : AuthContext).is_superuser = false ∧
    (apiKeyCtx suKey suUser).is_superuser = suUser.is_superuser :=
  ⟨superuser_flag_propagation.1 defaultSettings 10 revokedDemoToken none
      { tenant_id := 2, user_id := some 1, auth_method := "jwt", scopes := ["read"],
        is_superuser := false } rfl,
   superuser_flag_propagation.2 50 "omnex_root" none suDb suKey suUser
      (fun _ h => Option.noConfusion h) rfl rfl rfl rfl
      (apiKeyCtx suKey suUser) (some (touchLastUsed suDb suKey 50), none) rfl⟩

/-- C8: `generate_api_key` returns a triple whose stored hash is exactly
`hash_api_key` of the full key, `hash_api_key` is deterministic, the display
prefix is an initial segment of the full key, and the full key is the fixed
public prefix "omnex_" followed by the lowercase-hex rendering of the 32
(hence at least 32) random bytes. -/
theorem generate_api_key_roundtrip (bs : List Nat) (hlen : bs.length = 32)
    (hbytes : ∀ b ∈ bs, b < 256) :
    hash_api_key (generate_api_key bs).1 = (generate_api_key bs).2.1 ∧
    (∀ k1 k2 : String, k1 = k2 → hash_api_key k1 = hash_api_key k2) ∧
    (∃ rest, (generate_api_key bs).1 = (generate_api_key bs).2.2 ++ rest) ∧
    (generate_api_key bs).1 = "omnex_" ++ bytesToHexStr bs ∧
    32 ≤ bs.length ∧
    (∀ c ∈ (bytesToHexStr bs).data, c ∈ ("0123456789abcdef").data) := by
  refine ⟨rfl, fun k1 k2 h => by rw [h], ?_, rfl, by omega, ?_⟩
  · exact ⟨pyDrop (generate_api_key bs).1 15,
      (pyTake_append_pyDrop (generate_api_key bs).1 15).symm⟩
  · intro c hc
    simp only [bytesToHexStr, List.mem_flatten, List.mem_map] at hc
    obtain ⟨l, ⟨b, hb, rfl⟩, hcl⟩ := hc
    have hlt : b < 256 := hbytes b hb
    simp only [byteToHex, List.mem_cons, List.mem_singleton] at hcl
    rcases hcl with h1 | h1 | h1
    · rw [h1]
      exact hexChar_mem_digits (b / 16) (by omega)
    · rw [h1]
      exact hexChar_mem_digits (b % 16) (Nat.mod_lt b (by norm_num))
    · cases h1

/-- Witness for C8 at the concrete byte list 0..31. -/
theorem generate_api_key_roundtrip_witness :
    hash_api_key (generate_api_key (List.range 32)).1 = (generate_api_key (List.range 32)).2.1 ∧
    (∃ rest, (generate_api_key (List.range 32)).1 = (generate_api_key (List.range 32)).2.2 ++ rest) ∧
    (generate_api_key (List.range 32)).1 = "omnex_" ++ bytesToHexStr (List.range 32) :=
  ⟨(generate_api_key_roundtrip (List.range 32) (by decide) (by decide)).1,
   (generate_api_key_roundtrip (List.range 32) (by decide) (by decide)).2.2.1,
   (generate_api_key_roundtrip (List.range 32) (by decide) (by decide)).2.2.2.1⟩

end Omnex
